import Mathlib

/-!
Verification of the Peadra ledger store (`src/database/db_manager.py`) and the
transfer pairing of the transactions view (`src/views/transactions.py`).

Modelling conventions:
* SQLite `REAL` amounts are modelled as `ℚ` (exact arithmetic of the summed
  column values).
* `DATE`/`TIMESTAMP` columns are `TEXT` in the schema and are compared by
  SQLite as strings; they are modelled as `String` with the lexicographic
  order (ISO dates compare correctly this way).
* `categories.id` is an `INTEGER PRIMARY KEY`, hence unique; the
  `LEFT JOIN categories c ON t.category_id = c.id` therefore yields at most
  one match per transaction and is modelled by `List.find?`.
* `ORDER BY` is modelled as a stable sort (`List.insertionSort`) of the rows
  in table (insertion) order; columns not named in the `ORDER BY` clause keep
  the underlying row order.
* Python truthiness (`if limit:`, `if data.get("id"):`) is modelled
  explicitly where the code relies on it.
-/

namespace Peadra

/-- A row of the `categories` table:
`id INTEGER PRIMARY KEY, name TEXT NOT NULL UNIQUE, type TEXT NOT NULL,
color TEXT`.  The column `type` is called `ctype` here. -/
structure Category where
  id : Int
  name : String
  ctype : String
  color : String
deriving DecidableEq, Repr

/-- A row of the `transactions` table:
`id INTEGER PRIMARY KEY, date DATE NOT NULL, description TEXT NOT NULL,
amount REAL NOT NULL, transaction_type TEXT NOT NULL, category_id INTEGER,
notes TEXT, created_at TIMESTAMP, updated_at TIMESTAMP`. -/
structure Transaction where
  id : Int
  date : String
  description : String
  amount : ℚ
  transaction_type : String
  category_id : Option Int
  notes : Option String
  created_at : String
  updated_at : String
deriving DecidableEq, Repr

/-- The database state: the two tables, in insertion (rowid) order, plus the
next `INTEGER PRIMARY KEY` value each table will assign. -/
structure DB where
  categories : List Category
  transactions : List Transaction
  nextCat : Int
  nextTxn : Int
deriving DecidableEq, Repr

/-- `_init_database` + `_insert_default_categories` on a fresh file: the three
default categories, no transactions. -/
def initDB : DB :=
  { categories :=
      [ { id := 1, name := "Checking Account", ctype := "checking", color := "#4CAF50" }
      , { id := 2, name := "Savings Account A", ctype := "savings", color := "#2196F3" }
      , { id := 3, name := "Savings Account B", ctype := "savings", color := "#009688" } ]
  , transactions := []
  , nextCat := 4
  , nextTxn := 1 }

/-- The `type` of the category row joined to a transaction by
`LEFT JOIN categories c ON t.category_id = c.id` (`none` when
`category_id IS NULL` or dangling, in which case `c.type` is SQL NULL). -/
def joinedType (cats : List Category) (t : Transaction) : Option String :=
  (t.category_id.bind fun cid => cats.find? fun c => c.id == cid).map (·.ctype)

/-- The signed contribution of one row to the balance aggregations:
`CASE WHEN transaction_type = 'income' THEN amount
      WHEN transaction_type = 'expense' THEN -amount ELSE 0 END`. -/
def signedAmount (t : Transaction) : ℚ :=
  if t.transaction_type = "income" then t.amount
  else if t.transaction_type = "expense" then -t.amount
  else 0

/-- `get_total_patrimony`: `COALESCE(SUM(CASE ...), 0)` over all transactions
(no join, no account filter). -/
def get_total_patrimony (db : DB) : ℚ :=
  (db.transactions.map signedAmount).sum

/-- `get_balance`: the same signed sum restricted by
`WHERE c.type = 'checking'` after the left join. -/
def get_balance (db : DB) : ℚ :=
  ((db.transactions.filter fun t => joinedType db.categories t == some "checking").map
    signedAmount).sum

/-- `get_savings_total`: the same signed sum restricted by
`WHERE c.type = 'savings'` after the left join. -/
def get_savings_total (db : DB) : ℚ :=
  ((db.transactions.filter fun t => joinedType db.categories t == some "savings").map
    signedAmount).sum

/-- The arguments of one `add_transaction` call. -/
structure AddReq where
  date : String
  description : String
  amount : ℚ
  transaction_type : String
  category_id : Option Int
  notes : Option String
deriving DecidableEq, Repr

/-- `add_transaction`: INSERT a row (new primary key, `created_at` and
`updated_at` filled by the `CURRENT_TIMESTAMP` default, whose value no claim
depends on and which is modelled as `""`); returns the new row id. -/
def add_transaction (db : DB) (r : AddReq) : DB × Int :=
  ( { db with
      transactions := db.transactions ++
        [ { id := db.nextTxn, date := r.date, description := r.description,
            amount := r.amount, transaction_type := r.transaction_type,
            category_id := r.category_id, notes := r.notes,
            created_at := "", updated_at := "" } ]
      nextTxn := db.nextTxn + 1 }
  , db.nextTxn )

/-- A sequence of `add_transaction` calls. -/
def applyAdds (db : DB) (reqs : List AddReq) : DB :=
  reqs.foldl (fun d r => (add_transaction d r).1) db

/-- Spec-side sum: total of the amounts of the income-typed requests. -/
def sumIncome (reqs : List AddReq) : ℚ :=
  ((reqs.filter fun r => r.transaction_type == "income").map (·.amount)).sum

/-- Spec-side sum: total of the amounts of the expense-typed requests. -/
def sumExpense (reqs : List AddReq) : ℚ :=
  ((reqs.filter fun r => r.transaction_type == "expense").map (·.amount)).sum

/-- The signed value of one request, as `add_transaction` stores it. -/
def reqSigned (r : AddReq) : ℚ :=
  if r.transaction_type = "income" then r.amount
  else if r.transaction_type = "expense" then -r.amount
  else 0

theorem signedAmount_add (db : DB) (r : AddReq) :
    get_total_patrimony (add_transaction db r).1 = get_total_patrimony db + reqSigned r := by
  simp [get_total_patrimony, add_transaction, reqSigned, signedAmount]

theorem patrimony_applyAdds (db : DB) (reqs : List AddReq) :
    get_total_patrimony (applyAdds db reqs) =
      get_total_patrimony db + (reqs.map reqSigned).sum := by
  induction reqs generalizing db with
  | nil => simp [applyAdds]
  | cons r rs ih =>
      simp only [applyAdds, List.foldl_cons, List.map_cons, List.sum_cons]
      have := ih (add_transaction db r).1
      simp only [applyAdds] at this
      rw [this, signedAmount_add]
      ring

theorem sum_reqSigned (reqs : List AddReq) :
    (reqs.map reqSigned).sum = sumIncome reqs - sumExpense reqs := by
  induction reqs with
  | nil => simp [sumIncome, sumExpense]
  | cons r rs ih =>
      simp only [List.map_cons, List.sum_cons, sumIncome, sumExpense, List.filter_cons] at *
      by_cases hi : r.transaction_type = "income"
      · simp [reqSigned, hi, ih]; ring
      · by_cases he : r.transaction_type = "expense"
        · simp [reqSigned, hi, he, ih]; ring
        · simp [reqSigned, hi, he, ih]

/-- C1.  For every sequence of `add_transaction` calls on a fresh database
(any mix of income, expense and transfer types, any `category_id` including
NULL), `get_total_patrimony()` returns the sum of the amounts of the
income-typed transactions minus the sum of the amounts of the expense-typed
transactions (transfer-typed rows contribute zero), regardless of account
assignment; in particular after inserting income 1000, expense 200, income
500 it returns 1300. -/
theorem c1_total_patrimony :
    (∀ reqs : List AddReq,
        get_total_patrimony (applyAdds initDB reqs) = sumIncome reqs - sumExpense reqs) ∧
    get_total_patrimony (applyAdds initDB
      [ ⟨"2023-01-01", "Salary", 1000, "income", none, none⟩
      , ⟨"2023-01-02", "Groceries", 200, "expense", none, none⟩
      , ⟨"2023-01-03", "Bonus", 500, "income", none, none⟩ ]) = 1300 := by
  constructor
  · intro reqs
    rw [patrimony_applyAdds, sum_reqSigned]
    simp [initDB, get_total_patrimony]
  · simp +decide only [applyAdds, add_transaction, get_total_patrimony, signedAmount, initDB,
      List.foldl_cons, List.foldl_nil, List.map, List.sum_cons, List.sum_nil,
      List.nil_append, List.append_assoc, List.cons_append, if_true, if_false]
    norm_num

theorem balance_partition (cats : List Category) (txns : List Transaction)
    (h1 : ∀ t ∈ txns, ∃ c ∈ cats, t.category_id = some c.id)
    (h2 : ∀ c ∈ cats, c.ctype = "checking" ∨ c.ctype = "savings") :
    ((txns.filter fun t => joinedType cats t == some "checking").map signedAmount).sum
      + ((txns.filter fun t => joinedType cats t == some "savings").map signedAmount).sum
      = (txns.map signedAmount).sum := by
  induction txns with
  | nil => simp
  | cons t ts ih =>
      obtain ⟨c, hc, hcid⟩ := h1 t (List.mem_cons_self t ts)
      have hfind : ∃ c', cats.find? (fun c' => c'.id == c.id) = some c' := by
        have : (cats.find? (fun c' => c'.id == c.id)).isSome := by
          rw [List.find?_isSome]
          exact ⟨c, hc, by simp⟩
        exact Option.isSome_iff_exists.mp this
      obtain ⟨c', hfind⟩ := hfind
      have hmem : c' ∈ cats := List.mem_of_find?_eq_some hfind
      have hjt : joinedType cats t = some c'.ctype := by
        simp [joinedType, hcid, hfind]
      have ih' := ih (fun t' ht' => h1 t' (List.mem_cons_of_mem t ht'))
      have hcs : ((some "checking" : Option String) == some "savings") = false := by decide
      have hsc : ((some "savings" : Option String) == some "checking") = false := by decide
      have hcc : ((some "checking" : Option String) == some "checking") = true := by decide
      have hss : ((some "savings" : Option String) == some "savings") = true := by decide
      rcases h2 c' hmem with hty | hty
      · simp only [List.filter_cons, List.map_cons, List.sum_cons, hjt, hty,
          hcs, hcc, Bool.false_eq_true, if_true, if_false, reduceIte, ← ih']
        ring
      · simp only [List.filter_cons, List.map_cons, List.sum_cons, hjt, hty,
          hsc, hss, Bool.false_eq_true, if_true, if_false, reduceIte, ← ih']
        ring

/-- C2.  Whenever every transaction has a non-null `category_id` referencing
an existing category and every category's `type` is `'checking'` or
`'savings'`, `get_balance() + get_savings_total() == get_total_patrimony()`
holds on the database state. -/
theorem c2_balance_savings_patrimony (db : DB)
    (h1 : ∀ t ∈ db.transactions, ∃ c ∈ db.categories, t.category_id = some c.id)
    (h2 : ∀ c ∈ db.categories, c.ctype = "checking" ∨ c.ctype = "savings") :
    get_balance db + get_savings_total db = get_total_patrimony db :=
  balance_partition db.categories db.transactions h1 h2

/-- Database of the spec scenario: checking account C with `+1000 income`,
savings account S with `+5000 income`. -/
def c2DB : DB :=
  { categories :=
      [ { id := 1, name := "C", ctype := "checking", color := "#000000" }
      , { id := 2, name := "S", ctype := "savings", color := "#FFFFFF" } ]
  , transactions :=
      [ { id := 1, date := "2023-01-01", description := "Income Checking", amount := 1000,
          transaction_type := "income", category_id := some 1, notes := none,
          created_at := "", updated_at := "" }
      , { id := 2, date := "2023-01-01", description := "Income Savings", amount := 5000,
          transaction_type := "income", category_id := some 2, notes := none,
          created_at := "", updated_at := "" } ]
  , nextCat := 3
  , nextTxn := 3 }

theorem c2_witness :
    get_balance c2DB + get_savings_total c2DB = get_total_patrimony c2DB :=
  c2_balance_savings_patrimony c2DB
    (by intro t ht
        simp only [c2DB, List.mem_cons, List.not_mem_nil, or_false] at ht
        rcases ht with rfl | rfl
        · exact ⟨{ id := 1, name := "C", ctype := "checking", color := "#000000" }, by simp [c2DB], rfl⟩
        · exact ⟨{ id := 2, name := "S", ctype := "savings", color := "#FFFFFF" }, by simp [c2DB], rfl⟩)
    (by intro c hc
        simp only [c2DB, List.mem_cons, List.not_mem_nil, or_false] at hc
        rcases hc with rfl | rfl
        · exact Or.inl rfl
        · exact Or.inr rfl)

/-- Python truthiness of an optional string (`if account_type:`). -/
def truthyStr : Option String → Bool
  | none => false
  | some s => !(s == "")

/-- `update_category(category_id, name, color, account_type?)`: UPDATE of
`name`, `color` and (when `account_type` is truthy) `type` on the matching
`categories` row; returns `rowcount > 0`.  A UNIQUE(name) or CHECK(type)
violation raises `IntegrityError`, caught and turned into `False` with no
change.  The `transactions` table is not touched. -/
def update_category (db : DB) (cid : Int) (name color : String)
    (accountType : Option String) : DB × Bool :=
  if db.categories.any fun c => c.name == name && !(c.id == cid) then (db, false)
  else if truthyStr accountType &&
      !(accountType.getD "" == "checking" || accountType.getD "" == "savings") then
    (db, false)
  else
    ( { db with categories := db.categories.map fun c =>
          if c.id == cid then
            { c with name := name, color := color,
                     ctype := if truthyStr accountType then accountType.getD c.ctype else c.ctype }
          else c }
    , db.categories.any fun c => c.id == cid )

/-- Database replaying the setup of
`test_rename_category_propagates_to_transactions`: category "Old Name" and
three transactions, two of them with "Transfer to/from Old Name"
descriptions. -/
def c5DB : DB :=
  { categories := [ { id := 1, name := "Old Name", ctype := "checking", color := "#F00" } ]
  , transactions :=
      [ { id := 1, date := "2023-01-01", description := "Transfer to Old Name", amount := 100,
          transaction_type := "expense", category_id := some 1, notes := none,
          created_at := "", updated_at := "" }
      , { id := 2, date := "2023-01-01", description := "Transfer from Old Name", amount := 100,
          transaction_type := "income", category_id := some 1, notes := none,
          created_at := "", updated_at := "" }
      , { id := 3, date := "2023-01-01", description := "Unrelated Transaction", amount := 50,
          transaction_type := "expense", category_id := some 1, notes := none,
          created_at := "", updated_at := "" } ]
  , nextCat := 2
  , nextTxn := 4 }

/-- C5.  The claim says renaming a category rewrites the
"Transfer to/from [old name]" description substrings of the matching
transactions.  The code does not: `update_category` never touches the
`transactions` table, and replaying the repository's own rename test
(`test_db_manager.py::test_rename_category_propagates_to_transactions`)
leaves every description unchanged — in particular
"Transfer to Old Name" stays instead of becoming "Transfer to New Name",
so the code contradicts its own test. -/
theorem c5_rename_does_not_propagate :
    (∀ (db : DB) (cid : Int) (name color : String) (ty : Option String),
        (update_category db cid name color ty).1.transactions = db.transactions) ∧
    (update_category c5DB 1 "New Name" "#0F0" (some "checking")).2 = true ∧
    ((update_category c5DB 1 "New Name" "#0F0" (some "checking")).1.transactions.map
        (·.description))
      = ["Transfer to Old Name", "Transfer from Old Name", "Unrelated Transaction"] ∧
    "Transfer to Old Name" ≠ "Transfer to New Name" := by
  refine ⟨?_, by decide, by decide, by decide⟩
  intro db cid name color ty
  unfold update_category
  split
  · rfl
  · split
    · rfl
    · rfl

/-- `delete_category(category_id, delete_transactions)`: either
`DELETE FROM transactions WHERE category_id = ?` or
`UPDATE transactions SET category_id = NULL WHERE category_id = ?`, then
`DELETE FROM categories WHERE id = ?`; returns the rowcount of the category
delete. -/
def delete_category (db : DB) (cid : Int) (deleteTransactions : Bool) : DB × Bool :=
  let txns :=
    if deleteTransactions then db.transactions.filter fun t => !(t.category_id == some cid)
    else db.transactions.map fun t =>
      if t.category_id == some cid then { t with category_id := none } else t
  ( { db with
      transactions := txns
      categories := db.categories.filter fun c => !(c.id == cid) }
  , db.categories.any fun c => c.id == cid )

/-- C6.  `delete_category(id, delete_transactions=True)` removes every
transaction whose `category_id` is `id` and deletes the category;
`delete_category(id, delete_transactions=False)` instead sets `category_id`
to NULL on exactly those transactions (all other rows unchanged), deletes
the category, and leaves the number of transaction rows unchanged. -/
theorem c6_delete_category (db : DB) (cid : Int) :
    (∀ t, t ∈ (delete_category db cid true).1.transactions ↔
        t ∈ db.transactions ∧ t.category_id ≠ some cid) ∧
    (∀ c, c ∈ (delete_category db cid true).1.categories ↔
        c ∈ db.categories ∧ c.id ≠ cid) ∧
    (delete_category db cid false).1.transactions.length = db.transactions.length ∧
    List.Forall₂
      (fun t t' => t' = if t.category_id = some cid then { t with category_id := none } else t)
      db.transactions (delete_category db cid false).1.transactions ∧
    (∀ c, c ∈ (delete_category db cid false).1.categories ↔
        c ∈ db.categories ∧ c.id ≠ cid) := by
  refine ⟨?_, ?_, ?_, ?_, ?_⟩
  · intro t
    simp [delete_category, List.mem_filter]
  · intro c
    simp [delete_category, List.mem_filter]
  · simp [delete_category]
  · simp only [delete_category]
    induction db.transactions with
    | nil => exact List.Forall₂.nil
    | cons t ts ih =>
        refine List.Forall₂.cons ?_ ih
        by_cases h : t.category_id = some cid <;> simp [h]
  · intro c
    simp [delete_category, List.mem_filter]

/-- The keyword arguments of one `update_transaction` call.  Python keyword
arguments have distinct names, so the recognized columns are one optional
value each; `unknown` holds the names of the keyword arguments outside the
allow-list (their values are dropped by the filtering dict comprehension
before reaching SQL, so they are not modelled). -/
structure UpdateFields where
  date : Option String
  description : Option String
  amount : Option ℚ
  transaction_type : Option String
  category_id : Option (Option Int)
  notes : Option (Option String)
  unknown : List String
deriving DecidableEq, Repr

/-- Whether any allow-listed field was passed (`updates` nonempty). -/
def hasAllowed (u : UpdateFields) : Bool :=
  u.date.isSome || u.description.isSome || u.amount.isSome ||
  u.transaction_type.isSome || u.category_id.isSome || u.notes.isSome

/-- Whether `kwargs` was empty (`if not kwargs: return False`). -/
def kwargsEmpty (u : UpdateFields) : Bool :=
  !hasAllowed u && u.unknown.isEmpty

/-- The `SET` clause: each passed field overwrites its column, and
`updated_at` is set to `datetime.now().isoformat()` (passed as `now`). -/
def applyUpdates (u : UpdateFields) (now : String) (t : Transaction) : Transaction :=
  { t with
    date := u.date.getD t.date
    description := u.description.getD t.description
    amount := u.amount.getD t.amount
    transaction_type := u.transaction_type.getD t.transaction_type
    category_id := u.category_id.getD t.category_id
    notes := u.notes.getD t.notes
    updated_at := now }

/-- `update_transaction(transaction_id, **kwargs)`: `False` on empty kwargs,
`False` when the allow-list filter leaves nothing, otherwise
`UPDATE transactions SET ... WHERE id = ?` and `rowcount > 0`. -/
def update_transaction (db : DB) (tid : Int) (u : UpdateFields) (now : String) :
    DB × Bool :=
  if kwargsEmpty u then (db, false)
  else if !hasAllowed u then (db, false)
  else
    ( { db with transactions := db.transactions.map fun t =>
          if t.id == tid then applyUpdates u now t else t }
    , db.transactions.any fun t => t.id == tid )

theorem update_transaction_not_allowed (db : DB) (tid : Int) (u : UpdateFields)
    (now : String) (h : hasAllowed u = false) :
    update_transaction db tid u now = (db, false) := by
  unfold update_transaction
  by_cases hk : kwargsEmpty u = true
  · rw [if_pos hk]
  · rw [if_neg hk, if_pos (by simp [h])]

theorem update_transaction_allowed (db : DB) (tid : Int) (u : UpdateFields)
    (now : String) (h : hasAllowed u = true) :
    update_transaction db tid u now =
      ( { db with transactions := db.transactions.map fun t =>
            if t.id == tid then applyUpdates u now t else t }
      , db.transactions.any fun t => t.id == tid ) := by
  unfold update_transaction
  rw [if_neg (by simp [kwargsEmpty, h]), if_neg (by simp [h])]

theorem proj_map_update {β : Type} (l : List Transaction) (tid : Int)
    (u : UpdateFields) (now : String) (p : Transaction → β)
    (h : ∀ t, p (applyUpdates u now t) = p t) :
    (l.map fun t => if t.id == tid then applyUpdates u now t else t).map p = l.map p := by
  induction l with
  | nil => rfl
  | cons a as ih =>
      simp only [List.map_cons]
      by_cases hid : (a.id == tid) = true
      · rw [if_pos hid, h a, ih]
      · rw [if_neg hid, ih]

/-- C7.  `update_transaction(id, **fields)` modifies only the recognized
columns plus `updated_at`: it returns `False` and changes no row when no
allowed field is given (including when only unrecognized field names are
passed) or when no row has the given id; it returns `True` exactly when an
allowed field was given and a row with the given id exists; the `id` and
`created_at` columns are never modified, rows with a different id are left
intact, and a recognized column that was not passed keeps its value on every
row. -/
theorem c7_update_transaction (db : DB) (tid : Int) (u : UpdateFields) (now : String) :
    (hasAllowed u = false → update_transaction db tid u now = (db, false)) ∧
    ((update_transaction db tid u now).2 =
      (hasAllowed u && db.transactions.any fun t => t.id == tid)) ∧
    ((db.transactions.any fun t => t.id == tid) = false →
      (update_transaction db tid u now).1 = db) ∧
    (update_transaction db tid u now).1.transactions.map (·.id) =
      db.transactions.map (·.id) ∧
    (update_transaction db tid u now).1.transactions.map (·.created_at) =
      db.transactions.map (·.created_at) ∧
    (∀ t, t ∈ db.transactions → t.id ≠ tid →
      t ∈ (update_transaction db tid u now).1.transactions) ∧
    (u.date = none →
      (update_transaction db tid u now).1.transactions.map (·.date) =
        db.transactions.map (·.date)) ∧
    (u.description = none →
      (update_transaction db tid u now).1.transactions.map (·.description) =
        db.transactions.map (·.description)) ∧
    (u.amount = none →
      (update_transaction db tid u now).1.transactions.map (·.amount) =
        db.transactions.map (·.amount)) ∧
    (u.transaction_type = none →
      (update_transaction db tid u now).1.transactions.map (·.transaction_type) =
        db.transactions.map (·.transaction_type)) ∧
    (u.category_id = none →
      (update_transaction db tid u now).1.transactions.map (·.category_id) =
        db.transactions.map (·.category_id)) ∧
    (u.notes = none →
      (update_transaction db tid u now).1.transactions.map (·.notes) =
        db.transactions.map (·.notes)) := by
  cases hA : hasAllowed u with
  | false =>
      have heq : update_transaction db tid u now = (db, false) :=
        update_transaction_not_allowed db tid u now hA
      exact ⟨fun _ => heq, by rw [heq]; simp, fun _ => by rw [heq], by rw [heq],
        by rw [heq], fun t ht _ => by rw [heq]; exact ht,
        fun _ => by rw [heq], fun _ => by rw [heq], fun _ => by rw [heq],
        fun _ => by rw [heq], fun _ => by rw [heq], fun _ => by rw [heq]⟩
  | true =>
      have heq := update_transaction_allowed db tid u now hA
      refine ⟨fun h => absurd h (by simp), ?_, ?_, ?_, ?_, ?_,
        ?_, ?_, ?_, ?_, ?_, ?_⟩
      · rw [heq]
        simp
      · intro hnone
        rw [heq]
        have hmap : (db.transactions.map fun t =>
            if t.id == tid then applyUpdates u now t else t) = db.transactions := by
          have hidf : ∀ t ∈ db.transactions, (t.id == tid) = false := by
            intro t ht
            have := List.any_eq_false.mp hnone t ht
            simpa using this
          calc (db.transactions.map fun t =>
                  if t.id == tid then applyUpdates u now t else t)
              = db.transactions.map id := by
                apply List.map_congr_left
                intro t ht
                simp [hidf t ht]
            _ = db.transactions := List.map_id db.transactions
        show ({ db with transactions := db.transactions.map fun t =>
            if t.id == tid then applyUpdates u now t else t }) = db
        rw [hmap]
      · rw [heq]
        exact proj_map_update db.transactions tid u now (·.id) (fun t => rfl)
      · rw [heq]
        exact proj_map_update db.transactions tid u now (·.created_at) (fun t => rfl)
      · intro t ht hne
        rw [heq]
        refine List.mem_map.mpr ⟨t, ht, ?_⟩
        simp [hne]
      · intro hnone
        rw [heq]
        exact proj_map_update db.transactions tid u now (·.date)
          (fun t => by simp [applyUpdates, hnone])
      · intro hnone
        rw [heq]
        exact proj_map_update db.transactions tid u now (·.description)
          (fun t => by simp [applyUpdates, hnone])
      · intro hnone
        rw [heq]
        exact proj_map_update db.transactions tid u now (·.amount)
          (fun t => by simp [applyUpdates, hnone])
      · intro hnone
        rw [heq]
        exact proj_map_update db.transactions tid u now (·.transaction_type)
          (fun t => by simp [applyUpdates, hnone])
      · intro hnone
        rw [heq]
        exact proj_map_update db.transactions tid u now (·.category_id)
          (fun t => by simp [applyUpdates, hnone])
      · intro hnone
        rw [heq]
        exact proj_map_update db.transactions tid u now (·.notes)
          (fun t => by simp [applyUpdates, hnone])

theorem c7_witness :
    update_transaction c2DB 1 ⟨none, none, none, none, none, none, ["wrong_field"]⟩ "T"
        = (c2DB, false) ∧
    (update_transaction c2DB 1 ⟨some "2024-02-02", none, none, none, none, none, []⟩ "T").2
        = true ∧
    (update_transaction c2DB 99 ⟨some "2024-02-02", none, none, none, none, none, []⟩ "T").1
        = c2DB := by
  refine ⟨(c7_update_transaction c2DB 1 _ "T").1 (by decide), ?_,
    (c7_update_transaction c2DB 99 _ "T").2.2.1 (by decide)⟩
  rw [(c7_update_transaction c2DB 1 _ "T").2.1]
  decide

/-- Python `f"{n:02d}"` for a month or month+1 value. -/
def pad2 (n : Nat) : String :=
  if n < 10 then "0" ++ toString n else toString n

/-- `start_date = f"{year}-{month:02d}-01"`. -/
def monthStart (year month : Nat) : String :=
  toString year ++ "-" ++ pad2 month ++ "-01"

/-- `end_date`: first day of the next month (year rollover at month 12). -/
def monthEnd (year month : Nat) : String :=
  if month = 12 then toString (year + 1) ++ "-01-01"
  else toString year ++ "-" ++ pad2 (month + 1) ++ "-01"

/-- The result dict of `get_monthly_summary`. -/
structure MonthlySummary where
  income : ℚ
  expenses : ℚ
  balance : ℚ
deriving DecidableEq, Repr

/-- SQLite compares TEXT values bytewise (memcmp); on the UTF-8 strings the
app stores this is the lexicographic order of the character list, taken on
`String.data` so that it evaluates. -/
def dateLe (a b : String) : Bool := decide (a.data ≤ b.data)

/-- SQLite TEXT `<` (see `dateLe`). -/
def dateLt (a b : String) : Bool := decide (a.data < b.data)

/-- `get_monthly_summary(year, month)`: two `SUM(CASE ...)` aggregates over
`WHERE (t.date >= start AND t.date < end) AND (c.type = 'checking' OR
t.category_id IS NULL)` after the left join, and `balance = income -
expenses`. -/
def get_monthly_summary (db : DB) (year month : Nat) : MonthlySummary :=
  let s := monthStart year month
  let e := monthEnd year month
  let rows := db.transactions.filter fun t =>
    dateLe s t.date && dateLt t.date e &&
    (joinedType db.categories t == some "checking" || t.category_id == none)
  let income := (rows.map fun t => if t.transaction_type == "income" then t.amount else 0).sum
  let expenses := (rows.map fun t => if t.transaction_type == "expense" then t.amount else 0).sum
  ⟨income, expenses, income - expenses⟩

theorem sum_filter_ite (l : List Transaction) (p q : Transaction → Bool)
    (f : Transaction → ℚ) :
    ((l.filter p).map fun t => if q t then f t else 0).sum
      = ((l.filter fun t => p t && q t).map f).sum := by
  induction l with
  | nil => rfl
  | cons t ts ih =>
      by_cases hp : p t = true
      · by_cases hq : q t = true
        · simp [List.filter_cons, hp, hq, ih]
        · simp [List.filter_cons, hp, hq, ih]
      · simp [List.filter_cons, hp, ih]

/-- C8.  `get_monthly_summary(year, month)` returns `income` and `expenses`
as positive magnitudes summed over the transactions with
`month_start <= date < next_month_start` whose joined category has type
`'checking'` or whose `category_id` is NULL, together with
`balance = income - expenses`; a transaction on a savings-typed account, or
outside the half-open month window, contributes nothing. -/
theorem c8_monthly_summary (db : DB) (year month : Nat) :
    (get_monthly_summary db year month).income =
      ((db.transactions.filter fun t =>
          (dateLe (monthStart year month) t.date && dateLt t.date (monthEnd year month) &&
            (joinedType db.categories t == some "checking" || t.category_id == none)) &&
          (t.transaction_type == "income")).map (·.amount)).sum ∧
    (get_monthly_summary db year month).expenses =
      ((db.transactions.filter fun t =>
          (dateLe (monthStart year month) t.date && dateLt t.date (monthEnd year month) &&
            (joinedType db.categories t == some "checking" || t.category_id == none)) &&
          (t.transaction_type == "expense")).map (·.amount)).sum ∧
    (get_monthly_summary db year month).balance =
      (get_monthly_summary db year month).income -
        (get_monthly_summary db year month).expenses ∧
    (∀ t : Transaction,
      joinedType db.categories t = some "savings" ∨
        ¬ (dateLe (monthStart year month) t.date = true ∧
            dateLt t.date (monthEnd year month) = true) →
      get_monthly_summary { db with transactions := t :: db.transactions } year month =
        get_monthly_summary db year month) := by
  refine ⟨?_, ?_, rfl, ?_⟩
  · exact sum_filter_ite db.transactions _ _ (·.amount)
  · exact sum_filter_ite db.transactions _ _ (·.amount)
  · intro t h
    have hfalse :
        (dateLe (monthStart year month) t.date && dateLt t.date (monthEnd year month) &&
          (joinedType db.categories t == some "checking" || t.category_id == none)) = false := by
      rcases h with hsav | hwin
      · have h1 : (joinedType db.categories t == some "checking") = false := by
          rw [hsav]; decide
        have h2 : (t.category_id == none) = false := by
          cases hcid : t.category_id with
          | none => simp [joinedType, hcid] at hsav
          | some x => rfl
        rw [h1, h2]
        simp
      · rcases not_and_or.mp hwin with hs | he
        · rw [Bool.eq_false_iff.mpr hs, Bool.false_and, Bool.false_and]
        · rw [Bool.eq_false_iff.mpr he, Bool.and_false, Bool.false_and]
    show get_monthly_summary ⟨db.categories, t :: db.transactions, db.nextCat, db.nextTxn⟩
        year month = get_monthly_summary db year month
    unfold get_monthly_summary
    simp only [List.filter_cons, hfalse]
    rfl

/-- A savings-typed transaction added to `c2DB` inside January 2023. -/
def c8Txn : Transaction :=
  { id := 9, date := "2023-01-05", description := "Savings move", amount := 300,
    transaction_type := "income", category_id := some 2, notes := none,
    created_at := "", updated_at := "" }

theorem c8_witness :
    get_monthly_summary { c2DB with transactions := c8Txn :: c2DB.transactions } 2023 1 =
      get_monthly_summary c2DB 2023 1 :=
  (c8_monthly_summary c2DB 2023 1).2.2.2 c8Txn (Or.inl (by decide))

/-- `ORDER BY t.date DESC` of `get_transactions_by_period`: `a` may come
before `b` when `b.date <= a.date`; rows with equal dates keep the
underlying table order (stable sort), since no further sort key is given. -/
def dateDescOrder (a b : Transaction) : Prop := b.date.data ≤ a.date.data

/-- `ORDER BY t.date DESC, t.id DESC` of `get_all_transactions`. -/
def dateIdDescOrder (a b : Transaction) : Prop :=
  b.date.data < a.date.data ∨ (a.date = b.date ∧ b.id ≤ a.id)

instance : DecidableRel dateDescOrder :=
  fun a b => inferInstanceAs (Decidable (b.date.data ≤ a.date.data))

instance : DecidableRel dateIdDescOrder :=
  fun a b =>
    inferInstanceAs (Decidable (b.date.data < a.date.data ∨ (a.date = b.date ∧ b.id ≤ a.id)))

instance : IsTotal Transaction dateDescOrder :=
  ⟨fun a b => le_total b.date.data a.date.data⟩

instance : IsTrans Transaction dateDescOrder :=
  ⟨fun _ _ _ h1 h2 => le_trans h2 h1⟩

/-- `get_all_transactions(limit?, offset?)`: all rows sorted by
`date DESC, id DESC`; the `LIMIT {limit} OFFSET {offset}` clause is appended
only when `limit` is truthy (neither `None` nor `0`).  SQLite treats a
negative LIMIT as unbounded.  The joined display columns
(`category_name`, `category_color`) carry no information the claims use and
are not modelled. -/
def get_all_transactions (db : DB) (limit : Option Int) (offset : Nat) :
    List Transaction :=
  let rows := List.insertionSort dateIdDescOrder db.transactions
  match limit with
  | none => rows
  | some n =>
      if n = 0 then rows
      else if n < 0 then rows.drop offset
      else (rows.drop offset).take n.toNat

/-- `get_transactions_by_period(start_date, end_date)`:
`WHERE t.date BETWEEN ? AND ?` (inclusive on both ends), `ORDER BY t.date
DESC` — with no id tie-break. -/
def get_transactions_by_period (db : DB) (startDate endDate : String) :
    List Transaction :=
  List.insertionSort dateDescOrder
    (db.transactions.filter fun t => dateLe startDate t.date && dateLe t.date endDate)

/-- Database with the three rows of the period scenario (`T1` on 2023-01-01,
`T2` on 2023-01-15, `T3` on 2023-02-01). -/
def c9DB : DB :=
  { categories := []
  , transactions :=
      [ { id := 1, date := "2023-01-01", description := "T1", amount := 10,
          transaction_type := "expense", category_id := none, notes := none,
          created_at := "", updated_at := "" }
      , { id := 2, date := "2023-01-15", description := "T2", amount := 20,
          transaction_type := "expense", category_id := none, notes := none,
          created_at := "", updated_at := "" }
      , { id := 3, date := "2023-02-01", description := "T3", amount := 30,
          transaction_type := "expense", category_id := none, notes := none,
          created_at := "", updated_at := "" } ]
  , nextCat := 1
  , nextTxn := 4 }

/-- Database with two rows sharing one date, inserted as id 1 then id 2. -/
def c9TieDB : DB :=
  { categories := []
  , transactions :=
      [ { id := 1, date := "2023-05-10", description := "A", amount := 10,
          transaction_type := "expense", category_id := none, notes := none,
          created_at := "", updated_at := "" }
      , { id := 2, date := "2023-05-10", description := "B", amount := 20,
          transaction_type := "expense", category_id := none, notes := none,
          created_at := "", updated_at := "" } ]
  , nextCat := 1
  , nextTxn := 3 }

/-- C9 (counterexample).  `get_transactions_by_period` does not order ties by
`id DESC` the way `get_all_transactions` does: on two rows sharing a date the
period query keeps the table order (id 1 before id 2) while
`get_all_transactions` returns id 2 before id 1, refuting "in the same
ordering as get_all_transactions, namely date descending with id descending
as tie-break". -/
theorem c9_counterexample :
    (get_transactions_by_period c9TieDB "2023-05-01" "2023-05-31").map (·.id) = [1, 2] ∧
    (get_all_transactions c9TieDB none 0).map (·.id) = [2, 1] := by
  constructor <;> decide

/-- C9 (amended).  `get_transactions_by_period(start, end)` returns exactly
the transactions with `start <= date <= end` (both bounds inclusive, in the
bytewise TEXT order), ordered by date descending — but without the
id-descending tie-break of `get_all_transactions` (rows with equal dates
stay in table order); over rows dated 2023-01-01, 2023-01-15 and 2023-02-01
the call with range 2023-01-01 to 2023-01-31 returns exactly the first two
(most recent first). -/
theorem c9_by_period :
    (∀ (db : DB) (s e : String) (t : Transaction),
        t ∈ get_transactions_by_period db s e ↔
          t ∈ db.transactions ∧ s.data ≤ t.date.data ∧ t.date.data ≤ e.data) ∧
    (∀ (db : DB) (s e : String),
        List.Sorted dateDescOrder (get_transactions_by_period db s e)) ∧
    (get_transactions_by_period c9DB "2023-01-01" "2023-01-31").map (·.id) = [2, 1] := by
  refine ⟨?_, ?_, by decide⟩
  · intro db s e t
    rw [get_transactions_by_period,
      (List.perm_insertionSort dateDescOrder _).mem_iff, List.mem_filter]
    simp [dateLe]
  · intro db s e
    exact List.sorted_insertionSort dateDescOrder _

/-- C10.  `get_all_transactions` treats a limit of 0 (like `None`) as "no
limit": `if limit:` is false, so the LIMIT/OFFSET clause is not appended,
and `get_all_transactions(limit=0, offset=k)` returns every transaction row
(the whole sorted table) and ignores the offset, rather than returning zero
rows. -/
theorem c10_limit_zero (db : DB) (offset : Nat) :
    get_all_transactions db (some 0) offset = get_all_transactions db none 0 ∧
    (∀ t, t ∈ get_all_transactions db (some 0) offset ↔ t ∈ db.transactions) := by
  constructor
  · rfl
  · intro t
    exact (List.perm_insertionSort dateIdDescOrder db.transactions).mem_iff

/-!
The transactions view (`src/views/transactions.py`) belongs to the
schema variant in which transactions carry a `subcategory_id` account
reference; its row dicts are modelled by `ViewTxn`.  `description` is
guarded by `or ""` in the code, so it is nullable here.
-/

/-- A transaction row as the transactions view sees it. -/
structure ViewTxn where
  id : Int
  date : String
  description : Option String
  amount : ℚ
  transaction_type : String
  subcategory_id : Option Int
  notes : Option String
deriving DecidableEq, Repr

/-- The synthetic `transfer_group` dict built by `_group_transactions`
(`ids` for deletion, expense id as primary `id`, income id as `other_id`,
source/destination account ids, combined description; the constant display
fields `transaction_type = "transfer_group"`, `subcategory_name =
"Virement"`, `subcategory_id = None` and the color are carried by the
constructor). -/
structure TransferGroup where
  ids : List Int
  id : Int
  other_id : Int
  date : String
  amount : ℚ
  description : String
  source_id : Option Int
  dest_id : Option Int
  notes : Option String
deriving DecidableEq, Repr

/-- One entry of the grouped display list: an untouched row or a merged
transfer group. -/
inductive DisplayRow where
  | tx (t : ViewTxn)
  | group (g : TransferGroup)
deriving DecidableEq, Repr

/-- The match test and group construction applied to the current row `t1`
and the immediately next row `t2`: same amount, same date, different
transaction type, then the two complementary prefix cases
("Virement vers " is 14 characters, "Virement de " is 12). -/
def matchTransfer (t1 t2 : ViewTxn) : Option TransferGroup :=
  let d1 := t1.description.getD ""
  let d2 := t2.description.getD ""
  if t1.amount = t2.amount ∧ t1.date = t2.date ∧
      t1.transaction_type ≠ t2.transaction_type then
    if t1.transaction_type = "expense" ∧ d1.startsWith "Virement vers " then
      if t2.transaction_type = "income" ∧ d2.startsWith "Virement de " then
        some { ids := [t1.id, t2.id], id := t1.id, other_id := t2.id,
               date := t1.date, amount := t1.amount,
               description := "Transfert de " ++ d2.drop 12 ++ " vers " ++ d1.drop 14,
               source_id := t1.subcategory_id, dest_id := t2.subcategory_id,
               notes := t1.notes }
      else none
    else if t1.transaction_type = "income" ∧ d1.startsWith "Virement de " then
      if t2.transaction_type = "expense" ∧ d2.startsWith "Virement vers " then
        some { ids := [t1.id, t2.id], id := t2.id, other_id := t1.id,
               date := t1.date, amount := t1.amount,
               description := "Transfert de " ++ d1.drop 12 ++ " vers " ++ d2.drop 14,
               source_id := t2.subcategory_id, dest_id := t1.subcategory_id,
               notes := t1.notes }
      else none
    else none
  else none

/-- `_group_transactions`: single left-to-right scan; a row whose
description starts with a transfer marker looks at the immediately next row
only; on a merge the scan advances by two, otherwise by one. -/
def group_transactions : List ViewTxn → List DisplayRow
  | [] => []
  | t1 :: rest =>
      match rest with
      | [] => [DisplayRow.tx t1]
      | t2 :: rest2 =>
          if (t1.description.getD "").startsWith "Virement vers " ||
              (t1.description.getD "").startsWith "Virement de " then
            match matchTransfer t1 t2 with
            | some g => DisplayRow.group g :: group_transactions rest2
            | none => DisplayRow.tx t1 :: group_transactions (t2 :: rest2)
          else DisplayRow.tx t1 :: group_transactions (t2 :: rest2)

/-- The underlying transaction ids carried by one display row. -/
def rowIds : DisplayRow → List Int
  | DisplayRow.tx t => [t.id]
  | DisplayRow.group g => g.ids

/-- Merge condition as the claim states it: equal amount, equal date,
complementary transaction types (one expense, one income) with the
complementary description markers. -/
def ClaimMerge (t1 t2 : ViewTxn) : Prop :=
  t1.amount = t2.amount ∧ t1.date = t2.date ∧
    ((t1.transaction_type = "expense" ∧
        (t1.description.getD "").startsWith "Virement vers " ∧
        t2.transaction_type = "income" ∧
        (t2.description.getD "").startsWith "Virement de ") ∨
      (t1.transaction_type = "income" ∧
        (t1.description.getD "").startsWith "Virement de " ∧
        t2.transaction_type = "expense" ∧
        (t2.description.getD "").startsWith "Virement vers "))

instance (t1 t2 : ViewTxn) : Decidable (ClaimMerge t1 t2) :=
  inferInstanceAs (Decidable (_ ∧ _))

/-- The group record the claim describes: both underlying ids in scan order,
the expense leg as primary id and source, the income leg as `other_id` and
destination, and the combined description. -/
def claimGroup (t1 t2 : ViewTxn) : TransferGroup :=
  if t1.transaction_type = "expense" then
    { ids := [t1.id, t2.id], id := t1.id, other_id := t2.id,
      date := t1.date, amount := t1.amount,
      description := "Transfert de " ++ (t2.description.getD "").drop 12 ++
        " vers " ++ (t1.description.getD "").drop 14,
      source_id := t1.subcategory_id, dest_id := t2.subcategory_id,
      notes := t1.notes }
  else
    { ids := [t1.id, t2.id], id := t2.id, other_id := t1.id,
      date := t1.date, amount := t1.amount,
      description := "Transfert de " ++ (t1.description.getD "").drop 12 ++
        " vers " ++ (t2.description.getD "").drop 14,
      source_id := t2.subcategory_id, dest_id := t1.subcategory_id,
      notes := t1.notes }

theorem matchTransfer_of_claim (t1 t2 : ViewTxn) (h : ClaimMerge t1 t2) :
    matchTransfer t1 t2 = some (claimGroup t1 t2) := by
  obtain ⟨ham, hdt, hcase⟩ := h
  rcases hcase with ⟨he1, hd1, hi2, hd2⟩ | ⟨hi1, hd1, he2, hd2⟩
  · rw [matchTransfer]
    rw [if_pos ⟨ham, hdt, by rw [he1, hi2]; decide⟩, if_pos ⟨he1, hd1⟩, if_pos ⟨hi2, hd2⟩]
    rw [claimGroup, if_pos he1]
  · rw [matchTransfer]
    rw [if_pos ⟨ham, hdt, by rw [hi1, he2]; decide⟩]
    rw [if_neg, if_pos ⟨hi1, hd1⟩, if_pos ⟨he2, hd2⟩]
    · rw [claimGroup, if_neg (by rw [hi1]; decide)]
    · rintro ⟨he1, -⟩
      rw [hi1] at he1
      exact absurd he1 (by decide)

theorem matchTransfer_of_not_claim (t1 t2 : ViewTxn) (h : ¬ ClaimMerge t1 t2) :
    matchTransfer t1 t2 = none := by
  rw [matchTransfer]
  by_cases h0 : t1.amount = t2.amount ∧ t1.date = t2.date ∧
      t1.transaction_type ≠ t2.transaction_type
  · rw [if_pos h0]
    by_cases h1 : t1.transaction_type = "expense" ∧
        (t1.description.getD "").startsWith "Virement vers "
    · rw [if_pos h1]
      by_cases h2 : t2.transaction_type = "income" ∧
          (t2.description.getD "").startsWith "Virement de "
      · exact absurd ⟨h0.1, h0.2.1, Or.inl ⟨h1.1, h1.2, h2.1, h2.2⟩⟩ h
      · rw [if_neg h2]
    · rw [if_neg h1]
      by_cases h3 : t1.transaction_type = "income" ∧
          (t1.description.getD "").startsWith "Virement de "
      · rw [if_pos h3]
        by_cases h4 : t2.transaction_type = "expense" ∧
            (t2.description.getD "").startsWith "Virement vers "
        · exact absurd ⟨h0.1, h0.2.1, Or.inr ⟨h3.1, h3.2, h4.1, h4.2⟩⟩ h
        · rw [if_neg h4]
      · rw [if_neg h3]
  · rw [if_neg h0]

theorem claim_candidate (t1 t2 : ViewTxn) (h : ClaimMerge t1 t2) :
    ((t1.description.getD "").startsWith "Virement vers " ||
      (t1.description.getD "").startsWith "Virement de ") = true := by
  rcases h.2.2 with ⟨-, hd1, -, -⟩ | ⟨-, hd1, -, -⟩
  · simp [hd1]
  · simp [hd1]

/-- C3.  The transfer-pairing pass `_group_transactions` over a transaction
list is a single left-to-right, no-backtracking scan: on a candidate head it
inspects only the immediately next row and merges the two into one
synthetic `transfer_group` record exactly when the two rows have equal
amount, equal date, complementary transaction types (one expense, one
income) and complementary description markers — the record carrying both
underlying ids, the source and destination account ids and a combined
description (per `claimGroup`); on a merge the scan advances by two,
otherwise it advances by one and the row stays standalone, so every input
row appears in the output exactly once (its id shows up exactly once, in
order, either standalone or as one of the two ids of one group). -/
theorem group_step (t1 t2 : ViewTxn) (rest : List ViewTxn) :
    group_transactions (t1 :: t2 :: rest) =
      if ClaimMerge t1 t2 then
        DisplayRow.group (claimGroup t1 t2) :: group_transactions rest
      else DisplayRow.tx t1 :: group_transactions (t2 :: rest) := by
  by_cases h : ClaimMerge t1 t2
  · rw [if_pos h]
    show (if ((t1.description.getD "").startsWith "Virement vers " ||
            (t1.description.getD "").startsWith "Virement de ") = true then
          match matchTransfer t1 t2 with
          | some g => DisplayRow.group g :: group_transactions rest
          | none => DisplayRow.tx t1 :: group_transactions (t2 :: rest)
        else DisplayRow.tx t1 :: group_transactions (t2 :: rest)) = _
    rw [if_pos (claim_candidate t1 t2 h), matchTransfer_of_claim t1 t2 h]
  · rw [if_neg h]
    show (if ((t1.description.getD "").startsWith "Virement vers " ||
            (t1.description.getD "").startsWith "Virement de ") = true then
          match matchTransfer t1 t2 with
          | some g => DisplayRow.group g :: group_transactions rest
          | none => DisplayRow.tx t1 :: group_transactions (t2 :: rest)
        else DisplayRow.tx t1 :: group_transactions (t2 :: rest)) = _
    by_cases hc : ((t1.description.getD "").startsWith "Virement vers " ||
        (t1.description.getD "").startsWith "Virement de ") = true
    · rw [if_pos hc, matchTransfer_of_not_claim t1 t2 h]
    · rw [if_neg hc]

theorem claimGroup_ids (t1 t2 : ViewTxn) : (claimGroup t1 t2).ids = [t1.id, t2.id] := by
  unfold claimGroup
  by_cases he : t1.transaction_type = "expense"
  · rw [if_pos he]
  · rw [if_neg he]

theorem group_ids_flatten : ∀ ts : List ViewTxn,
    ((group_transactions ts).map rowIds).flatten = ts.map (·.id)
  | [] => rfl
  | [_] => rfl
  | t1 :: t2 :: rest => by
      rw [group_step t1 t2 rest]
      by_cases h : ClaimMerge t1 t2
      · rw [if_pos h]
        simp only [List.map_cons, List.flatten_cons, group_ids_flatten rest, rowIds,
          claimGroup_ids, List.cons_append, List.nil_append]
      · rw [if_neg h]
        simp only [List.map_cons, List.flatten_cons, group_ids_flatten (t2 :: rest), rowIds,
          List.cons_append, List.nil_append]

/-- C3.  The transfer-pairing pass `_group_transactions` over a transaction
list is a single left-to-right, no-backtracking scan: on a candidate head it
inspects only the immediately next row and merges the two into one
synthetic `transfer_group` record exactly when the two rows have equal
amount, equal date, complementary transaction types (one expense, one
income) and complementary description markers — the record carrying both
underlying ids, the source and destination account ids and a combined
description (per `claimGroup`); on a merge the scan advances by two,
otherwise it advances by one and the row stays standalone, so every input
row appears in the output exactly once (its id shows up exactly once, in
order, either standalone or as one of the two ids of one group). -/
theorem c3_group_transactions :
    (∀ ts : List ViewTxn,
        ((group_transactions ts).map rowIds).flatten = ts.map (·.id)) ∧
    (∀ (t1 t2 : ViewTxn) (rest : List ViewTxn),
        group_transactions (t1 :: t2 :: rest) =
          if ClaimMerge t1 t2 then
            DisplayRow.group (claimGroup t1 t2) :: group_transactions rest
          else DisplayRow.tx t1 :: group_transactions (t2 :: rest)) ∧
    (∀ t1 t2 : ViewTxn, (claimGroup t1 t2).ids = [t1.id, t2.id]) :=
  ⟨group_ids_flatten, group_step, claimGroup_ids⟩

/-- Python truthiness of an optional integer (`if data.get("id"):`). -/
def truthyInt : Option Int → Bool
  | none => false
  | some n => !(n == 0)

/-- The `data` dict handed to `_save_transaction` by the transaction modal
(`data.get(k)` for the optional keys). -/
structure SaveData where
  id : Option Int
  other_id : Option Int
  date : String
  description : String
  amount : ℚ
  transaction_type : String
  category_id : Option Int
  subcategory_id : Option Int
  source_id : Option Int
  dest_id : Option Int
  source_name : Option String
  dest_name : Option String
  notes : Option String
deriving DecidableEq, Repr

/-- One store call issued by `_save_transaction`: an `add_transaction`
insert, or one of its two `update_transaction` call shapes. -/
inductive DbOp where
  | insertTx (date description : String) (amount : ℚ) (transaction_type : String)
      (category_id subcategory_id : Option Int) (notes : Option String)
  | updateTransferLeg (id : Int) (date description : String) (amount : ℚ)
      (subcategory_id : Option Int) (notes : Option String)
  | updateStd (id : Int) (date description : String) (amount : ℚ)
      (transaction_type : String) (category_id subcategory_id : Option Int)
      (notes : Option String)
deriving DecidableEq, Repr

/-- The description of the row an operation inserts or writes. -/
def opDescription : DbOp → String
  | DbOp.insertTx _ d _ _ _ _ _ => d
  | DbOp.updateTransferLeg _ _ d _ _ _ => d
  | DbOp.updateStd _ _ d _ _ _ _ _ => d

/-- `_save_transaction(data)` as the list of store calls it makes, in
order: update both legs / update one row / create a transfer as two
inserts / create one standard insert. -/
def save_transaction (d : SaveData) : List DbOp :=
  if truthyInt d.id then
    if d.transaction_type = "transfer" ∧ truthyInt d.other_id then
      [ DbOp.updateTransferLeg (d.id.getD 0) d.date
          ("Virement vers " ++ d.dest_name.getD "compte") d.amount d.source_id d.notes
      , DbOp.updateTransferLeg (d.other_id.getD 0) d.date
          ("Virement de " ++ d.source_name.getD "compte") d.amount d.dest_id d.notes ]
    else
      [ DbOp.updateStd (d.id.getD 0) d.date d.description d.amount d.transaction_type
          d.category_id d.subcategory_id d.notes ]
  else if d.transaction_type = "transfer" then
    [ DbOp.insertTx d.date ("Virement vers " ++ d.dest_name.getD "compte") d.amount
        "expense" none d.source_id d.notes
    , DbOp.insertTx d.date ("Virement de " ++ d.source_name.getD "compte") d.amount
        "income" none d.dest_id d.notes ]
  else
    [ DbOp.insertTx d.date d.description d.amount d.transaction_type d.category_id
        d.subcategory_id d.notes ]

/-- The concrete transfer creation used to refute the claimed descriptions:
source account "A", destination account "B", amount 50. -/
def c4Data : SaveData :=
  { id := none, other_id := none, date := "2024-01-01", description := "",
    amount := 50, transaction_type := "transfer", category_id := none,
    subcategory_id := none, source_id := some 1, dest_id := some 2,
    source_name := some "A", dest_name := some "B", notes := none }

/-- C4 (counterexample).  Creating a transfer does insert exactly two rows
with the claimed shape, but their descriptions are "Virement vers <dest>" /
"Virement de <source>", not the claimed "Transfer to <dest>" /
"Transfer from <source>": for source "A", destination "B" neither inserted
description equals the claimed string. -/
theorem c4_counterexample :
    save_transaction c4Data =
      [ DbOp.insertTx "2024-01-01" "Virement vers B" 50 "expense" none (some 1) none
      , DbOp.insertTx "2024-01-01" "Virement de A" 50 "income" none (some 2) none ] ∧
    ((save_transaction c4Data).map opDescription).all
      (fun s => !(s == "Transfer to B") && !(s == "Transfer from A")) = true := by
  constructor
  · rfl
  · rfl

/-- C4 (amended).  Creating a new transfer (no `id` in the data, type
`"transfer"`) always inserts exactly two transaction rows: one expense-typed
row referencing the source account (`subcategory_id = source_id`) with
description `"Virement vers <dest>"` and one income-typed row referencing
the destination account (`subcategory_id = dest_id`) with description
`"Virement de <source>"`, both sharing the same date and the same amount
(and both with `category_id` NULL; a missing account name defaults to
"compte"). -/
theorem c4_save_transfer (other_id : Option Int) (date description : String)
    (amount : ℚ) (category_id subcategory_id source_id dest_id : Option Int)
    (source_name dest_name notes2 : Option String) :
    save_transaction
      { id := none, other_id := other_id, date := date, description := description,
        amount := amount, transaction_type := "transfer", category_id := category_id,
        subcategory_id := subcategory_id, source_id := source_id, dest_id := dest_id,
        source_name := source_name, dest_name := dest_name, notes := notes2 } =
      [ DbOp.insertTx date ("Virement vers " ++ dest_name.getD "compte") amount
          "expense" none source_id notes2
      , DbOp.insertTx date ("Virement de " ++ source_name.getD "compte") amount
          "income" none dest_id notes2 ] := by
  rfl

end Peadra
